import Mathlib

/-
Verification of the two tutorial notebooks in this repository:
 - "Part 13a - Secure Classification with Syft Keras and TFE - Public Training"
   (a Keras CNN trained on MNIST, weights saved to disk), and
 - "Part 12 - Train an Encrypted NN on Encrypted Data"
   (fixed-precision, secret-shared linear-regression training across the
   virtual workers alice, bob and james).

The notebooks are shallowly embedded below: their tensor programs become
Lean functions over exact integers and rationals, their configuration
cells become explicit data (layer lists, compile/fit arguments, share
calls), and the loop of Part 12 additionally gets a syntactic embedding so
that statements about what the notebook code *contains* can be settled.
-/

/-! ## Part 12: workers and share calls

Cell 2 creates three `VirtualWorker`s: alice, bob and james.  Cell 5
encodes four tensors in fixed precision and shares each of them with
`.share(alice, bob, crypto_provider=james)`. -/

inductive Party where
  | alice
  | bob
  | james
deriving DecidableEq

/-- The workers created in cell 2 of Part 12, in creation order. -/
def workersCreated : List Party := [Party.alice, Party.bob, Party.james]

/-- One `.share(...)` call: the tensor being shared, the positional
recipients of shares, and the `crypto_provider` keyword argument. -/
structure ShareCall where
  tensor : String
  recipients : List Party
  cryptoProvider : Party
deriving DecidableEq

/-- The four share calls of cell 5 of Part 12, in source order.  Every one
is `.share(alice, bob, crypto_provider=james)`. -/
def shareCalls : List ShareCall :=
  [ ⟨"data_enc", [Party.alice, Party.bob], Party.james⟩,
    ⟨"target_enc", [Party.alice, Party.bob], Party.james⟩,
    ⟨"model_enc", [Party.alice, Party.bob], Party.james⟩,
    ⟨"learning_rate_fp", [Party.alice, Party.bob], Party.james⟩ ]

/-- The parties touched by a share call: everyone who receives a share,
together with the designated crypto provider. -/
def shareTargets (c : ShareCall) : Finset Party :=
  c.recipients.toFinset ∪ {c.cryptoProvider}

/-- The set of the three simulated parties of the notebook. -/
def fullPartySet : Finset Party := {Party.alice, Party.bob, Party.james}

/-! ## Part 12: syntactic embedding of the training-loop cell

Cell 6 of Part 12 is, verbatim:

    for i in range(20):
        pred = data_enc.matmul(model_enc)
        err = pred - target_enc
        update = data_enc.t().matmul(err)
        model_enc = model_enc - update * learning_rate_fp
        loss = err.get().abs().sum().float_prec()
        print(loss)

The expressions of that cell are compositions of external-library tensor
primitives (`matmul`, `t`, `-`, `*`, `get`, `abs`, `sum`, `float_prec`)
over the notebook's variables.  The same statement language also embeds
the Keras notebook's cells, whose expressions are literals, tuples,
attribute accesses, subscripts and external-library calls (by callee name
and arguments, keyword arguments marked `kw`); the tensor-arithmetic
constructors are available to both embeddings, so that the presence or
absence of gradient and update arithmetic in either notebook is a fact
about the source, not about the language. -/

inductive TExpr where
  | var : String → TExpr
  | matmul : TExpr → TExpr → TExpr
  | transpose : TExpr → TExpr
  | sub : TExpr → TExpr → TExpr
  | mul : TExpr → TExpr → TExpr
  | get : TExpr → TExpr
  | abs : TExpr → TExpr
  | sum : TExpr → TExpr
  | float_prec : TExpr → TExpr
  | lit : String → TExpr
  | div : TExpr → TExpr → TExpr
  | tup2 : TExpr → TExpr → TExpr
  | tup3 : TExpr → TExpr → TExpr → TExpr
  | list1 : TExpr → TExpr
  | kw : String → TExpr → TExpr
  | attr : TExpr → String → TExpr
  | index : TExpr → TExpr → TExpr
  | call0 : String → TExpr
  | call1 : String → TExpr → TExpr
  | call2 : String → TExpr → TExpr → TExpr
  | call3 : String → TExpr → TExpr → TExpr → TExpr
  | call4 : String → TExpr → TExpr → TExpr → TExpr → TExpr
  | call6 : String → TExpr → TExpr → TExpr → TExpr → TExpr → TExpr → TExpr
deriving DecidableEq

inductive TStmt where
  | assign : String → TExpr → TStmt
  | printStmt : TExpr → TStmt
  | importStmt : String → TStmt
  | exprStmt : TExpr → TStmt
  | destructuring : List String → TExpr → TStmt
deriving DecidableEq

/-- The body of the `for i in range(20)` loop of cell 6, statement by
statement. -/
def loopBody : List TStmt :=
  [ TStmt.assign "pred" (TExpr.matmul (TExpr.var "data_enc") (TExpr.var "model_enc")),
    TStmt.assign "err" (TExpr.sub (TExpr.var "pred") (TExpr.var "target_enc")),
    TStmt.assign "update" (TExpr.matmul (TExpr.transpose (TExpr.var "data_enc")) (TExpr.var "err")),
    TStmt.assign "model_enc"
      (TExpr.sub (TExpr.var "model_enc") (TExpr.mul (TExpr.var "update") (TExpr.var "learning_rate_fp"))),
    TStmt.assign "loss"
      (TExpr.float_prec (TExpr.sum (TExpr.abs (TExpr.get (TExpr.var "err"))))),
    TStmt.printStmt (TExpr.var "loss") ]

/-- The primitive operations an expression invokes, as method names
(library calls contribute their callee name). -/
def opsOf : TExpr → List String
  | TExpr.var _ => []
  | TExpr.matmul a b => "matmul" :: (opsOf a ++ opsOf b)
  | TExpr.transpose a => "t" :: opsOf a
  | TExpr.sub a b => "sub" :: (opsOf a ++ opsOf b)
  | TExpr.mul a b => "mul" :: (opsOf a ++ opsOf b)
  | TExpr.get a => "get" :: opsOf a
  | TExpr.abs a => "abs" :: opsOf a
  | TExpr.sum a => "sum" :: opsOf a
  | TExpr.float_prec a => "float_prec" :: opsOf a
  | TExpr.lit _ => []
  | TExpr.div a b => "div" :: (opsOf a ++ opsOf b)
  | TExpr.tup2 a b => opsOf a ++ opsOf b
  | TExpr.tup3 a b c => opsOf a ++ opsOf b ++ opsOf c
  | TExpr.list1 a => opsOf a
  | TExpr.kw _ a => opsOf a
  | TExpr.attr a _ => opsOf a
  | TExpr.index a b => opsOf a ++ opsOf b
  | TExpr.call0 f => [f]
  | TExpr.call1 f a => f :: opsOf a
  | TExpr.call2 f a b => f :: (opsOf a ++ opsOf b)
  | TExpr.call3 f a b c => f :: (opsOf a ++ opsOf b ++ opsOf c)
  | TExpr.call4 f a b c d => f :: (opsOf a ++ opsOf b ++ opsOf c ++ opsOf d)
  | TExpr.call6 f a b c d e g =>
      f :: (opsOf a ++ opsOf b ++ opsOf c ++ opsOf d ++ opsOf e ++ opsOf g)

def stmtOps : TStmt → List String
  | TStmt.assign _ e => opsOf e
  | TStmt.printStmt e => opsOf e
  | TStmt.importStmt _ => []
  | TStmt.exprStmt e => opsOf e
  | TStmt.destructuring _ e => opsOf e

/-- The method names of the external tensor library used by the loop. -/
def libraryOps : List String :=
  ["matmul", "t", "sub", "mul", "get", "abs", "sum", "float_prec"]

/-- Does the expression contain a subterm of the form
`(something).t().matmul(something)` — a transposed-input matrix product,
the shape of a least-squares gradient computation? -/
def containsGradExpr : TExpr → Bool
  | TExpr.var _ => false
  | TExpr.matmul a b =>
      (match a with
       | TExpr.transpose _ => true
       | _ => false) || containsGradExpr a || containsGradExpr b
  | TExpr.transpose a => containsGradExpr a
  | TExpr.sub a b => containsGradExpr a || containsGradExpr b
  | TExpr.mul a b => containsGradExpr a || containsGradExpr b
  | TExpr.get a => containsGradExpr a
  | TExpr.abs a => containsGradExpr a
  | TExpr.sum a => containsGradExpr a
  | TExpr.float_prec a => containsGradExpr a
  | TExpr.lit _ => false
  | TExpr.div a b => containsGradExpr a || containsGradExpr b
  | TExpr.tup2 a b => containsGradExpr a || containsGradExpr b
  | TExpr.tup3 a b c => containsGradExpr a || containsGradExpr b || containsGradExpr c
  | TExpr.list1 a => containsGradExpr a
  | TExpr.kw _ a => containsGradExpr a
  | TExpr.attr a _ => containsGradExpr a
  | TExpr.index a b => containsGradExpr a || containsGradExpr b
  | TExpr.call0 _ => false
  | TExpr.call1 _ a => containsGradExpr a
  | TExpr.call2 _ a b => containsGradExpr a || containsGradExpr b
  | TExpr.call3 _ a b c => containsGradExpr a || containsGradExpr b || containsGradExpr c
  | TExpr.call4 _ a b c d =>
      containsGradExpr a || containsGradExpr b || containsGradExpr c || containsGradExpr d
  | TExpr.call6 _ a b c d e g =>
      containsGradExpr a || containsGradExpr b || containsGradExpr c
        || containsGradExpr d || containsGradExpr e || containsGradExpr g

/-- Does the variable `x` occur in the expression? -/
def occursVar (x : String) : TExpr → Bool
  | TExpr.var v => v == x
  | TExpr.matmul a b => occursVar x a || occursVar x b
  | TExpr.transpose a => occursVar x a
  | TExpr.sub a b => occursVar x a || occursVar x b
  | TExpr.mul a b => occursVar x a || occursVar x b
  | TExpr.get a => occursVar x a
  | TExpr.abs a => occursVar x a
  | TExpr.sum a => occursVar x a
  | TExpr.float_prec a => occursVar x a
  | TExpr.lit _ => false
  | TExpr.div a b => occursVar x a || occursVar x b
  | TExpr.tup2 a b => occursVar x a || occursVar x b
  | TExpr.tup3 a b c => occursVar x a || occursVar x b || occursVar x c
  | TExpr.list1 a => occursVar x a
  | TExpr.kw _ a => occursVar x a
  | TExpr.attr a _ => occursVar x a
  | TExpr.index a b => occursVar x a || occursVar x b
  | TExpr.call0 _ => false
  | TExpr.call1 _ a => occursVar x a
  | TExpr.call2 _ a b => occursVar x a || occursVar x b
  | TExpr.call3 _ a b c => occursVar x a || occursVar x b || occursVar x c
  | TExpr.call4 _ a b c d => occursVar x a || occursVar x b || occursVar x c || occursVar x d
  | TExpr.call6 _ a b c d e g =>
      occursVar x a || occursVar x b || occursVar x c
        || occursVar x d || occursVar x e || occursVar x g

/-- A statement performing gradient computation: it assigns an expression
containing a transposed-matmul. -/
def isGradientAssign : TStmt → Bool
  | TStmt.assign _ e => containsGradExpr e
  | _ => false

/-- A statement performing model-parameter update arithmetic: it assigns
to the model variable an arithmetic expression in which the model variable
itself occurs. -/
def isModelUpdateAssign : TStmt → Bool
  | TStmt.assign l e => l == "model_enc" && occursVar "model_enc" e
  | _ => false

/-- A statement containing gradient computation anywhere in its
expressions (assignment, bare expression, print, or tuple assignment). -/
def stmtContainsGrad : TStmt → Bool
  | TStmt.assign _ e => containsGradExpr e
  | TStmt.printStmt e => containsGradExpr e
  | TStmt.importStmt _ => false
  | TStmt.exprStmt e => containsGradExpr e
  | TStmt.destructuring _ e => containsGradExpr e

/-- A statement performing update arithmetic on the variable `x`: it
(re)assigns `x` by an expression in which `x` itself occurs. -/
def isUpdateAssignFor (x : String) : TStmt → Bool
  | TStmt.assign l e => l == x && occursVar x e
  | TStmt.destructuring ls e => ls.contains x && occursVar x e
  | _ => false

/-! ## Part 13a: syntactic embedding of the Keras notebook's code cells

Cells 1 and 2 of Part 13a, statement by statement, in the same language.
String literals are carried without their quote marks. -/

/-- A `model.add(layer)` call of cell 1, an expression statement. -/
def kAdd (layer : TExpr) : TStmt := TStmt.exprStmt (TExpr.call1 "model.add" layer)

/-- Cell 1 of Part 13a: imports, hyperparameters, MNIST loading and
preprocessing, model assembly, compile, fit and evaluation. -/
def kerasTrainingCell : List TStmt :=
  [ TStmt.importStmt "from __future__ import print_function",
    TStmt.importStmt "import tensorflow.keras as keras",
    TStmt.importStmt "from tensorflow.keras.datasets import mnist",
    TStmt.importStmt "from tensorflow.keras.models import Sequential",
    TStmt.importStmt "from tensorflow.keras.layers import Dense, Dropout, Flatten",
    TStmt.importStmt "from tensorflow.keras.layers import Conv2D, AveragePooling2D",
    TStmt.importStmt "from tensorflow.keras.layers import Activation",
    TStmt.assign "batch_size" (TExpr.lit "128"),
    TStmt.assign "num_classes" (TExpr.lit "10"),
    TStmt.assign "epochs" (TExpr.lit "2"),
    TStmt.destructuring ["img_rows", "img_cols"] (TExpr.tup2 (TExpr.lit "28") (TExpr.lit "28")),
    TStmt.destructuring ["x_train", "y_train", "x_test", "y_test"]
      (TExpr.call0 "mnist.load_data"),
    TStmt.assign "x_train"
      (TExpr.call4 "x_train.reshape"
        (TExpr.index (TExpr.attr (TExpr.var "x_train") "shape") (TExpr.lit "0"))
        (TExpr.var "img_rows") (TExpr.var "img_cols") (TExpr.lit "1")),
    TStmt.assign "x_test"
      (TExpr.call4 "x_test.reshape"
        (TExpr.index (TExpr.attr (TExpr.var "x_test") "shape") (TExpr.lit "0"))
        (TExpr.var "img_rows") (TExpr.var "img_cols") (TExpr.lit "1")),
    TStmt.assign "input_shape"
      (TExpr.tup3 (TExpr.var "img_rows") (TExpr.var "img_cols") (TExpr.lit "1")),
    TStmt.assign "x_train" (TExpr.call1 "x_train.astype" (TExpr.lit "float32")),
    TStmt.assign "x_test" (TExpr.call1 "x_test.astype" (TExpr.lit "float32")),
    TStmt.assign "x_train" (TExpr.div (TExpr.var "x_train") (TExpr.lit "255")),
    TStmt.assign "x_test" (TExpr.div (TExpr.var "x_test") (TExpr.lit "255")),
    TStmt.printStmt
      (TExpr.tup2 (TExpr.lit "x_train shape:") (TExpr.attr (TExpr.var "x_train") "shape")),
    TStmt.printStmt
      (TExpr.tup2 (TExpr.index (TExpr.attr (TExpr.var "x_train") "shape") (TExpr.lit "0"))
        (TExpr.lit "train samples")),
    TStmt.printStmt
      (TExpr.tup2 (TExpr.index (TExpr.attr (TExpr.var "x_test") "shape") (TExpr.lit "0"))
        (TExpr.lit "test samples")),
    TStmt.assign "y_train"
      (TExpr.call2 "keras.utils.to_categorical" (TExpr.var "y_train") (TExpr.var "num_classes")),
    TStmt.assign "y_test"
      (TExpr.call2 "keras.utils.to_categorical" (TExpr.var "y_test") (TExpr.var "num_classes")),
    TStmt.assign "model" (TExpr.call0 "Sequential"),
    kAdd (TExpr.call3 "Conv2D" (TExpr.lit "10") (TExpr.tup2 (TExpr.lit "3") (TExpr.lit "3"))
      (TExpr.kw "input_shape" (TExpr.var "input_shape"))),
    kAdd (TExpr.call1 "AveragePooling2D" (TExpr.tup2 (TExpr.lit "2") (TExpr.lit "2"))),
    kAdd (TExpr.call1 "Activation" (TExpr.lit "relu")),
    kAdd (TExpr.call2 "Conv2D" (TExpr.lit "32") (TExpr.tup2 (TExpr.lit "3") (TExpr.lit "3"))),
    kAdd (TExpr.call1 "AveragePooling2D" (TExpr.tup2 (TExpr.lit "2") (TExpr.lit "2"))),
    kAdd (TExpr.call1 "Activation" (TExpr.lit "relu")),
    kAdd (TExpr.call2 "Conv2D" (TExpr.lit "64") (TExpr.tup2 (TExpr.lit "3") (TExpr.lit "3"))),
    kAdd (TExpr.call1 "AveragePooling2D" (TExpr.tup2 (TExpr.lit "2") (TExpr.lit "2"))),
    kAdd (TExpr.call1 "Activation" (TExpr.lit "relu")),
    kAdd (TExpr.call0 "Flatten"),
    kAdd (TExpr.call2 "Dense" (TExpr.var "num_classes") (TExpr.kw "activation" (TExpr.lit "softmax"))),
    TStmt.exprStmt
      (TExpr.call3 "model.compile"
        (TExpr.kw "loss" (TExpr.attr (TExpr.attr (TExpr.var "keras") "losses") "categorical_crossentropy"))
        (TExpr.kw "optimizer" (TExpr.call0 "keras.optimizers.Adadelta"))
        (TExpr.kw "metrics" (TExpr.list1 (TExpr.lit "accuracy")))),
    TStmt.exprStmt
      (TExpr.call6 "model.fit" (TExpr.var "x_train") (TExpr.var "y_train")
        (TExpr.kw "batch_size" (TExpr.var "batch_size"))
        (TExpr.kw "epochs" (TExpr.var "epochs"))
        (TExpr.kw "verbose" (TExpr.lit "1"))
        (TExpr.kw "validation_data" (TExpr.tup2 (TExpr.var "x_test") (TExpr.var "y_test")))),
    TStmt.assign "score"
      (TExpr.call3 "model.evaluate" (TExpr.var "x_test") (TExpr.var "y_test")
        (TExpr.kw "verbose" (TExpr.lit "0"))),
    TStmt.printStmt
      (TExpr.tup2 (TExpr.lit "Test loss:") (TExpr.index (TExpr.var "score") (TExpr.lit "0"))),
    TStmt.printStmt
      (TExpr.tup2 (TExpr.lit "Test accuracy:") (TExpr.index (TExpr.var "score") (TExpr.lit "1"))) ]

/-- Cell 2 of Part 13a: the save call. -/
def kerasSaveCell : List TStmt :=
  [ TStmt.exprStmt (TExpr.call1 "model.save" (TExpr.lit "short-conv-mnist.h5")) ]

/-- All code statements of the Keras notebook. -/
def kerasNotebookStmts : List TStmt := kerasTrainingCell ++ kerasSaveCell

/-! ## Part 12: fixed-precision encoding

`.fix_precision()`, `.float_precision()` and `.float_prec()` are
implemented in the `syft` package of this repository, which is not among
the supplied files; they are modelled here from the spec. -/

/-- Modelled from the spec: `.fix_precision()` ("encoding floating-point
numbers as integers with an implicit scale factor").  The missing code is
`syft`'s fixed-precision encoder; each entry `x` becomes the integer
nearest to `x * s` for the scale factor `s`. -/
def fix_precision (s : ℕ) (x : ℚ) : ℤ := round (x * (s : ℚ))

/-- Modelled from the spec: `.float_precision()` / `.float_prec()`, the
decoder of the fixed-precision encoding — division by the scale factor.
The missing code is `syft`'s fixed-precision decoder. -/
def float_precision (s : ℕ) (z : ℤ) : ℚ := (z : ℚ) / (s : ℚ)

/-- The scale factor used throughout Part 12: `syft`'s fixed-precision
default of 3 base-10 fractional digits (visible in the notebook's printed
losses, for example `1.0720`). -/
def fpScale : ℕ := 1000

/-! ## Part 12: secret sharing

`.share()` is implemented in the `syft` package of this repository, which
is not among the supplied files; it is modelled here from the spec. -/

/-- Modelled from the spec: `.share()` ("splitting a value into shares
distributed across parties such that no single party can reconstruct it
alone").  The missing code is `syft`'s additive secret sharing; for the
notebook's two share recipients, a value `x` of the ring `ZMod q` becomes
the pair of shares `(r, x - r)` for randomness `r` drawn by the sharer. -/
def shareValue (q : ℕ) (x r : ZMod q) : ZMod q × ZMod q := (r, x - r)

/-- Recombining the shares (what `.get()` performs). -/
def reconstructShares (q : ℕ) (sh : ZMod q × ZMod q) : ZMod q := sh.1 + sh.2

/-! ## Part 12: the dataset and the exact fixed-precision training loop

Cells 3 and 4 of Part 12 create the toy dataset, the target, the initial
model and the learning rate.  The loop of cell 6 is embedded twice: once
over exact integers at scale `fpScale` (this section), mirroring the
fixed-precision arithmetic — products are rescaled by floor division by
the scale, as in the library's truncation of fixed-precision products —
and once over exact rationals (next section) for the gradient-descent
reading. -/

def dataRows : List (List ℚ) := [[0, 0], [0, 1], [1, 0], [1, 1]]

def targetRows : List (List ℚ) := [[0], [0], [1], [1]]

def modelRows : List (List ℚ) := [[0], [0]]

def learning_rate : ℚ := 1 / 10

/-- Entrywise fixed-precision encoding of a matrix, as `.fix_precision()`
performs on a tensor. -/
def fpEncodeMat (A : List (List ℚ)) : List (List ℤ) :=
  A.map (fun r => r.map (fix_precision fpScale))

/-- The encoded data tensor (`data.fix_precision()` at scale 1000); the
equation `dataFp = fpEncodeMat dataRows` is proved below. -/
def dataFp : List (List ℤ) := [[0, 0], [0, 1000], [1000, 0], [1000, 1000]]

/-- The encoded target tensor. -/
def targetFp : List (List ℤ) := [[0], [0], [1000], [1000]]

/-- The encoded initial model. -/
def modelFp : List (List ℤ) := [[0], [0]]

/-- The encoded learning rate. -/
def lrFp : ℤ := 100

def dotZ (a b : List ℤ) : ℤ := (List.zipWith (fun x y => x * y) a b).sum

def transposeL (A : List (List ℤ)) : List (List ℤ) :=
  (List.range (A.headD []).length).map (fun j => A.map (fun row => row.getD j 0))

/-- Fixed-precision matrix product: integer dot products, rescaled by
floor division by the scale factor. -/
def fpMatmul (A B : List (List ℤ)) : List (List ℤ) :=
  A.map (fun row => (transposeL B).map (fun col => Int.fdiv (dotZ row col) (fpScale : ℤ)))

def matSub (A B : List (List ℤ)) : List (List ℤ) :=
  List.zipWith (fun r s => List.zipWith (fun x y => x - y) r s) A B

/-- Fixed-precision product with an encoded scalar (the learning rate),
rescaled by floor division by the scale factor. -/
def fpScalarMul (A : List (List ℤ)) (c : ℤ) : List (List ℤ) :=
  A.map (fun row => row.map (fun x => Int.fdiv (x * c) (fpScale : ℤ)))

/-- One pass of the loop body of cell 6 over the encoded model:
`pred = data_enc.matmul(model_enc)`, `err = pred - target_enc`,
`update = data_enc.t().matmul(err)`,
`model_enc = model_enc - update * learning_rate_fp`. -/
def fpStep (M : List (List ℤ)) : List (List ℤ) :=
  let pred := fpMatmul dataFp M
  let err := matSub pred targetFp
  let update := fpMatmul (transposeL dataFp) err
  matSub M (fpScalarMul update lrFp)

/-- The encoded loss the loop prints before decoding:
`err.get().abs().sum()` for the `err` of the given model. -/
def fpLoss (M : List (List ℤ)) : ℤ :=
  ((matSub (fpMatmul dataFp M) targetFp).map (fun row => (row.map Int.natAbs).sum)).sum

/-- The encoded model after `n` iterations of the loop. -/
def modelIter : ℕ → List (List ℤ)
  | 0 => modelFp
  | n + 1 => fpStep (modelIter n)

/-- The loop runs `for i in range(20)`. -/
def trainIterations : ℕ := 20

/-- The twenty encoded losses the loop prints: iteration `i` prints the
loss of the model entering that iteration. -/
def printedLosses : List ℤ :=
  (List.range trainIterations).map (fun i => fpLoss (modelIter i))

/-- Boolean check that a list of integers strictly decreases. -/
def strictlyDecreasingZ : List ℤ → Bool
  | [] => true
  | [_] => true
  | a :: b :: rest => decide (b < a) && strictlyDecreasingZ (b :: rest)

/-! ## Part 12: rational-matrix reading of the loop -/

/-- One iteration of the cell-6 loop body over exact matrices: the four
assignments `pred`, `err`, `update`, `model_enc`, in source order. -/
def notebookStep {m n p : Type} [Fintype m] [Fintype n] [Fintype p]
    (X : Matrix m n ℚ) (y : Matrix m p ℚ) (lr : ℚ) (M : Matrix n p ℚ) :
    Matrix n p ℚ :=
  let pred := X * M
  let err := pred - y
  let update := X.transpose * err
  M - lr • update

/-- The model after `k` iterations of the loop. -/
def trainLoop {m n p : Type} [Fintype m] [Fintype n] [Fintype p]
    (X : Matrix m n ℚ) (y : Matrix m p ℚ) (lr : ℚ) (M0 : Matrix n p ℚ) :
    ℕ → Matrix n p ℚ
  | 0 => M0
  | k + 1 => notebookStep X y lr (trainLoop X y lr M0 k)

/-- Frobenius inner product of two matrices. -/
def frobInner {m p : Type} [Fintype m] [Fintype p] (A B : Matrix m p ℚ) : ℚ :=
  ∑ i, ∑ j, A i j * B i j

/-- Sum of squared entries. -/
def sumSq {m p : Type} [Fintype m] [Fintype p] (A : Matrix m p ℚ) : ℚ :=
  ∑ i, ∑ j, A i j * A i j

/-- The least-squares linear-regression loss, stated from the spec's
description of the task ("linear regression training"): half the squared
residual norm of the model `M` on data `X` and target `y`. -/
def leastSquaresLoss {m n p : Type} [Fintype m] [Fintype n] [Fintype p]
    (X : Matrix m n ℚ) (y : Matrix m p ℚ) (M : Matrix n p ℚ) : ℚ :=
  sumSq (X * M - y) / 2

/-! ## Part 13a: the Keras notebook's configuration -/

def batch_size : ℕ := 128

def num_classes : ℕ := 10

def epochs : ℕ := 2

def img_rows : ℕ := 28

def img_cols : ℕ := 28

inductive KLayer where
  | conv2D (filters kernelH kernelW : ℕ)
  | averagePooling2D (poolH poolW : ℕ)
  | activation (name : String)
  | flatten
  | dense (units : ℕ) (act : String)
deriving DecidableEq

/-- `model.add(layer)` appends the layer to the Sequential model. -/
def addLayer (m : List KLayer) (l : KLayer) : List KLayer := m ++ [l]

/-- The Sequential model of cell 1 of Part 13a, built by the eleven
`model.add(...)` calls in source order. -/
def mnistModel : List KLayer :=
  addLayer
    (addLayer
      (addLayer
        (addLayer
          (addLayer
            (addLayer
              (addLayer
                (addLayer
                  (addLayer
                    (addLayer
                      (addLayer [] (KLayer.conv2D 10 3 3))
                      (KLayer.averagePooling2D 2 2))
                    (KLayer.activation "relu"))
                  (KLayer.conv2D 32 3 3))
                (KLayer.averagePooling2D 2 2))
              (KLayer.activation "relu"))
            (KLayer.conv2D 64 3 3))
          (KLayer.averagePooling2D 2 2))
        (KLayer.activation "relu"))
      KLayer.flatten)
    (KLayer.dense num_classes "softmax")

structure CompileArgs where
  loss : String
  optimizer : String
  metrics : List String
deriving DecidableEq

/-- The `model.compile(...)` call of cell 1 of Part 13a. -/
def compileCall : CompileArgs :=
  ⟨"categorical_crossentropy", "Adadelta", ["accuracy"]⟩

structure FitArgs where
  trainX : String
  trainY : String
  batchSize : ℕ
  numEpochs : ℕ
  validationX : String
  validationY : String
deriving DecidableEq

/-- The `model.fit(...)` call of cell 1 of Part 13a: the MNIST training
arrays, the notebook's `batch_size` and `epochs` variables, and the MNIST
test arrays as `validation_data`. -/
def fitCall : FitArgs :=
  ⟨"x_train", "y_train", batch_size, epochs, "x_test", "y_test"⟩

/-! ## Part 13a: shape propagation through the layer stack -/

/-- A tensor shape flowing through the stack: a `h × w × c` image, or a
flat feature vector. -/
inductive Dim where
  | img (h w c : ℕ)
  | flat (n : ℕ)
deriving DecidableEq

/-- Keras output-shape rule of each layer under valid padding and default
strides: a `kh × kw` convolution needs `kh ≤ h` and `kw ≤ w` and yields
`(h - kh + 1) × (w - kw + 1)`, a `ph × pw` pooling yields the floor
quotients, activations preserve shape, `Flatten` multiplies the axes out,
and `Dense` maps a flat vector to its unit count.  `none` is a dimension
mismatch. -/
def layerOutDim : KLayer → Dim → Option Dim
  | KLayer.conv2D f kh kw, Dim.img h w _ =>
      if 0 < kh ∧ 0 < kw ∧ kh ≤ h ∧ kw ≤ w then
        some (Dim.img (h - kh + 1) (w - kw + 1) f)
      else none
  | KLayer.averagePooling2D ph pw, Dim.img h w c =>
      if 0 < ph ∧ 0 < pw ∧ ph ≤ h ∧ pw ≤ w then some (Dim.img (h / ph) (w / pw) c)
      else none
  | KLayer.activation _, d => some d
  | KLayer.flatten, Dim.img h w c => some (Dim.flat (h * w * c))
  | KLayer.dense u _, Dim.flat _ => some (Dim.flat u)
  | _, _ => none

/-- The shape entering the stack and after each successive layer. -/
def shapeTrace (layers : List KLayer) (d : Dim) : List (Option Dim) :=
  layers.scanl (fun od l => od.bind (layerOutDim l)) (some d)

/-- The output shape of the whole stack, `none` on any mismatch. -/
def outputDim (layers : List KLayer) (d : Dim) : Option Dim :=
  layers.foldl (fun od l => od.bind (layerOutDim l)) (some d)

/-! ## Part 13a: pixel preprocessing

Cell 1 reshapes the MNIST byte arrays, converts to float and divides by
255 (`x_train /= 255`).  The arithmetic is embedded exactly over ℚ. -/

/-- The value of one pixel byte after `astype('float32')` and `/= 255`. -/
def preprocessPixel (k : ℕ) : ℚ := (k : ℚ) / 255

/-- The preprocessing applied to a whole image of bytes. -/
def preprocessImage {I : Type} (img : I → Fin 256) : I → ℚ :=
  fun i => preprocessPixel (img i)

/-! ## Helper lemmas for the gradient-descent reading -/

theorem frobInner_eq_trace {m p : Type} [Fintype m] [Fintype p]
    (A B : Matrix m p ℚ) : frobInner A B = Matrix.trace (A.transpose * B) := by
  unfold frobInner
  simp only [Matrix.trace, Matrix.diag, Matrix.mul_apply, Matrix.transpose_apply]
  exact Finset.sum_comm

theorem frobInner_mul {m n p : Type} [Fintype m] [Fintype n] [Fintype p]
    (X : Matrix m n ℚ) (A : Matrix m p ℚ) (E : Matrix n p ℚ) :
    frobInner A (X * E) = frobInner (X.transpose * A) E := by
  rw [frobInner_eq_trace, frobInner_eq_trace, Matrix.transpose_mul,
    Matrix.transpose_transpose, Matrix.mul_assoc]

theorem sumSq_add_smul {m p : Type} [Fintype m] [Fintype p]
    (B C : Matrix m p ℚ) (t : ℚ) :
    sumSq (B + t • C) = sumSq B + 2 * t * frobInner B C + t * t * sumSq C := by
  unfold sumSq frobInner
  have expand : ∀ i j, (B + t • C) i j * (B + t • C) i j
      = B i j * B i j + (2 * t * (B i j * C i j) + t * t * (C i j * C i j)) := by
    intro i j
    simp only [Matrix.add_apply, Matrix.smul_apply, smul_eq_mul]
    ring
  calc (∑ i, ∑ j, (B + t • C) i j * (B + t • C) i j)
      = ∑ i, ∑ j, (B i j * B i j
          + (2 * t * (B i j * C i j) + t * t * (C i j * C i j))) :=
        Finset.sum_congr rfl fun i _ => Finset.sum_congr rfl fun j _ => expand i j
    _ = (∑ i, ∑ j, B i j * B i j)
          + ((∑ i, ∑ j, 2 * t * (B i j * C i j))
            + (∑ i, ∑ j, t * t * (C i j * C i j))) := by
        simp only [Finset.sum_add_distrib]
    _ = (∑ i, ∑ j, B i j * B i j) + 2 * t * (∑ i, ∑ j, B i j * C i j)
          + t * t * (∑ i, ∑ j, C i j * C i j) := by
        simp only [← Finset.mul_sum]
        ring

theorem strictlyDecreasingZ_chain :
    ∀ l : List ℤ, strictlyDecreasingZ l = true → List.Chain' (fun a b => b < a) l := by
  intro l
  induction l with
  | nil => intro _; simp
  | cons a t ih =>
    cases t with
    | nil => intro _; simp
    | cons b rest =>
      intro h
      simp only [strictlyDecreasingZ, Bool.and_eq_true, decide_eq_true_eq] at h
      exact List.chain'_cons.mpr ⟨h.1, ih h.2⟩

/-! ## Claim theorems -/

/-- C1: the SMPC notebook's loop runs 20 iterations, each iteration
computes `pred = X.matmul(M)`, `err = pred - target`,
`update = X.t().matmul(err)` and sets `M` to `M - update * learning_rate`,
and that step is one gradient-descent step for least-squares linear
regression: the step moves `M` by `-lr` times `Xᵀ(XM - y)`, which is the
gradient of the least-squares loss — along any direction `E`, the loss of
`M + t • E` expands with first-order coefficient `⟨Xᵀ(XM - y), E⟩`. -/
theorem training_loop_is_least_squares_gradient_descent
    {m n p : Type} [Fintype m] [Fintype n] [Fintype p]
    (X : Matrix m n ℚ) (y : Matrix m p ℚ) (lr : ℚ) (M0 : Matrix n p ℚ) :
    trainIterations = 20 ∧
    (∀ k : ℕ, trainLoop X y lr M0 (k + 1) = notebookStep X y lr (trainLoop X y lr M0 k)) ∧
    (∀ M : Matrix n p ℚ, notebookStep X y lr M = M - lr • (X.transpose * (X * M - y))) ∧
    (∀ (M E : Matrix n p ℚ) (t : ℚ),
      leastSquaresLoss X y (M + t • E) =
        leastSquaresLoss X y M + t * frobInner (X.transpose * (X * M - y)) E
          + t * t * sumSq (X * E) / 2) := by
  refine ⟨rfl, fun k => rfl, fun M => rfl, fun M E t => ?_⟩
  unfold leastSquaresLoss
  have h1 : X * (M + t • E) - y = (X * M - y) + t • (X * E) := by
    rw [Matrix.mul_add, Matrix.mul_smul]
    abel
  rw [h1, sumSq_add_smul, frobInner_mul]
  ring

/-- C2 counterexample: the claim that the notebook code contains no
gradient computation and no model-parameter update arithmetic is false on
the training-loop cell of Part 12 — its body holds both the gradient
assignment `update = data_enc.t().matmul(err)` and the update assignment
`model_enc = model_enc - update * learning_rate_fp`. -/
theorem loop_body_has_training_arithmetic :
    ¬ (loopBody.all (fun s => !isGradientAssign s && !isModelUpdateAssign s) = true) := by
  decide

/-- C2 amended: the primitive tensor, encryption, secret-sharing and
fixed-precision operations all live in the external libraries — every
operation the SMPC loop body invokes is one of the eight library method
calls — and the Keras notebook contains no gradient computation and no
model-parameter update arithmetic of its own (no statement of its cells
holds a transposed-matmul, and its `model` variable is never reassigned
by an expression involving itself); but the SMPC notebook itself does
spell out the gradient computation and the model-parameter update as
compositions of the library calls. -/
theorem loop_body_composes_library_primitives :
    TStmt.assign "update" (TExpr.matmul (TExpr.transpose (TExpr.var "data_enc")) (TExpr.var "err"))
        ∈ loopBody ∧
    TStmt.assign "model_enc"
        (TExpr.sub (TExpr.var "model_enc")
          (TExpr.mul (TExpr.var "update") (TExpr.var "learning_rate_fp"))) ∈ loopBody ∧
    loopBody.all (fun s => (stmtOps s).all (fun op => op ∈ libraryOps)) = true ∧
    kerasNotebookStmts.any stmtContainsGrad = false ∧
    kerasNotebookStmts.any (isUpdateAssignFor "model") = false := by
  decide

/-- C3: the three parties created in the notebook are alice, bob and
james, and for every one of the four `.share()` calls (data, target,
model, learning rate) the recipients of shares together with the
designated crypto provider are exactly that three-party set. -/
theorem every_share_call_spans_exactly_the_three_parties :
    workersCreated.toFinset = fullPartySet ∧
    shareCalls.map ShareCall.tensor
      = ["data_enc", "target_enc", "model_enc", "learning_rate_fp"] ∧
    shareCalls.all (fun c => decide (shareTargets c = fullPartySet)) = true := by
  decide

/-- C4: fixed precision is an integer encoding with an implicit scale
factor that round-trips with decoding — `decode (encode x)` equals
`round (x * s) / s`, and any value exactly representable at scale `s` is
recovered unchanged. -/
theorem fixed_precision_round_trip (s : ℕ) (hs : 0 < s) (x : ℚ) :
    float_precision s (fix_precision s x) = ((round (x * (s : ℚ)) : ℤ) : ℚ) / (s : ℚ) ∧
    (∀ k : ℤ, x = (k : ℚ) / (s : ℚ) → float_precision s (fix_precision s x) = x) := by
  constructor
  · rfl
  · intro k hk
    have hs0 : (s : ℚ) ≠ 0 := Nat.cast_ne_zero.mpr hs.ne'
    subst hk
    unfold float_precision fix_precision
    rw [div_mul_cancel₀ _ hs0, round_intCast]

/-- C4 witness: at scale 1000 the value 3/2 = 1500/1000 is exactly
representable and round-trips unchanged. -/
theorem fixed_precision_round_trip_at_1000 :
    (0 < 1000) ∧ (3 / 2 : ℚ) = ((1500 : ℤ) : ℚ) / ((1000 : ℕ) : ℚ) ∧
    float_precision 1000 (fix_precision 1000 (3 / 2)) = (3 / 2 : ℚ) :=
  ⟨by decide, by norm_num,
    (fixed_precision_round_trip 1000 (by decide) (3 / 2)).2 1500 (by norm_num)⟩

/-- C5: the shares recombine to the secret, yet for either single party,
every observable share value is compatible with the given secret through
exactly one choice of the sharing randomness — so each party's share in
isolation has the same (uniform) distribution whatever the secret is, and
determines nothing about it. -/
theorem single_share_reveals_nothing (q : ℕ) (x v : ZMod q) :
    (∀ r : ZMod q, reconstructShares q (shareValue q x r) = x) ∧
    (∃! r : ZMod q, (shareValue q x r).1 = v) ∧
    (∃! r : ZMod q, (shareValue q x r).2 = v) := by
  refine ⟨fun r => ?_, ⟨v, rfl, fun r h => h⟩, ⟨x - v, ?_, fun r h => ?_⟩⟩
  · show r + (x - r) = x
    ring
  · show x - (x - v) = v
    ring
  · have h2 : x - r = v := h
    rw [← h2]
    ring

/-- C5 witness: the sharing of the secret 3 modulo 7, observed share
value 5. -/
theorem single_share_reveals_nothing_mod_7 :
    (∀ r : ZMod 7, reconstructShares 7 (shareValue 7 3 r) = 3) ∧
    (∃! r : ZMod 7, (shareValue 7 3 r).1 = 5) ∧
    (∃! r : ZMod 7, (shareValue 7 3 r).2 = 5) :=
  single_share_reveals_nothing 7 3 5

/-- C6: the Keras notebook's Sequential model is the three
Conv2D/AveragePooling2D/ReLU blocks followed by Flatten and a 10-unit
softmax Dense layer, compiled with categorical cross-entropy, and fitted
on the MNIST training arrays for 2 epochs with batch size 128 validating
on the test arrays. -/
theorem keras_notebook_builds_and_trains_the_stated_cnn :
    mnistModel =
      [KLayer.conv2D 10 3 3, KLayer.averagePooling2D 2 2, KLayer.activation "relu",
       KLayer.conv2D 32 3 3, KLayer.averagePooling2D 2 2, KLayer.activation "relu",
       KLayer.conv2D 64 3 3, KLayer.averagePooling2D 2 2, KLayer.activation "relu",
       KLayer.flatten, KLayer.dense 10 "softmax"] ∧
    compileCall.loss = "categorical_crossentropy" ∧
    fitCall.numEpochs = 2 ∧ fitCall.batchSize = 128 ∧
    fitCall.trainX = "x_train" ∧ fitCall.trainY = "y_train" ∧
    fitCall.validationX = "x_test" ∧ fitCall.validationY = "y_test" :=
  ⟨rfl, rfl, rfl, rfl, rfl, rfl, rfl, rfl⟩

/-- C8: after the `astype('float32')` and `/= 255` preprocessing, every
entry is `k / 255` for its original pixel byte `k ≤ 255`, hence lies in
`[0, 1]`. -/
theorem preprocessed_pixels_lie_in_unit_interval
    {I : Type} (img : I → Fin 256) (i : I) :
    preprocessImage img i = (((img i : ℕ)) : ℚ) / 255 ∧
    ((img i : ℕ)) ≤ 255 ∧
    0 ≤ preprocessImage img i ∧ preprocessImage img i ≤ 1 := by
  have hb : ((img i : ℕ)) ≤ 255 := by
    have := (img i).isLt
    omega
  refine ⟨rfl, hb, ?_, ?_⟩
  · unfold preprocessImage preprocessPixel
    positivity
  · unfold preprocessImage preprocessPixel
    rw [div_le_one (by norm_num)]
    exact_mod_cast hb

/-- C8 witness: a one-pixel image holding the byte 128. -/
theorem preprocessed_pixels_witness :
    preprocessImage (fun _ : Fin 1 => (128 : Fin 256)) 0 = ((((128 : Fin 256) : ℕ)) : ℚ) / 255 ∧
    (((128 : Fin 256) : ℕ)) ≤ 255 ∧
    0 ≤ preprocessImage (fun _ : Fin 1 => (128 : Fin 256)) 0 ∧
    preprocessImage (fun _ : Fin 1 => (128 : Fin 256)) 0 ≤ 1 :=
  preprocessed_pixels_lie_in_unit_interval (fun _ : Fin 1 => (128 : Fin 256)) 0

/-- C9: on 28×28×1 inputs the stack is shape-compatible throughout — the
spatial size runs 28 → 26 → 13 → 11 → 5 → 3 → 1, Flatten yields exactly
64 features into the 10-unit Dense layer, and no layer reports a
dimension mismatch. -/
theorem layer_stack_is_shape_compatible :
    shapeTrace mnistModel (Dim.img img_rows img_cols 1) =
      [some (Dim.img 28 28 1), some (Dim.img 26 26 10), some (Dim.img 13 13 10),
       some (Dim.img 13 13 10), some (Dim.img 11 11 32), some (Dim.img 5 5 32),
       some (Dim.img 5 5 32), some (Dim.img 3 3 64), some (Dim.img 1 1 64),
       some (Dim.img 1 1 64), some (Dim.flat 64), some (Dim.flat 10)] ∧
    outputDim mnistModel (Dim.img img_rows img_cols 1) = some (Dim.flat 10) ∧
    (shapeTrace mnistModel (Dim.img img_rows img_cols 1)).all Option.isSome = true := by
  decide

/-- C10: under exact fixed-precision integer arithmetic at scale 1000,
the encoded inputs are exactly the claimed ones, the loop's first printed
loss decodes to 2.0, the twenty printed losses strictly decrease, and the
twentieth iteration again strictly decreases the loss of the model it
produces. -/
theorem smpc_loop_loss_starts_at_two_and_strictly_decreases :
    dataFp = fpEncodeMat dataRows ∧
    targetFp = fpEncodeMat targetRows ∧
    modelFp = fpEncodeMat modelRows ∧
    lrFp = fix_precision fpScale learning_rate ∧
    printedLosses.length = 20 ∧
    printedLosses.head? = some 2000 ∧
    float_precision fpScale 2000 = 2 ∧
    List.Chain' (fun a b => b < a) printedLosses ∧
    fpLoss (modelIter 20) < fpLoss (modelIter 19) := by
  refine ⟨?_, ?_, ?_, ?_, by decide, by decide, ?_,
    strictlyDecreasingZ_chain printedLosses (by decide), by decide⟩
  · norm_num [fpEncodeMat, dataRows, dataFp, fix_precision, fpScale]
  · norm_num [fpEncodeMat, targetRows, targetFp, fix_precision, fpScale]
  · norm_num [fpEncodeMat, modelRows, modelFp, fix_precision, fpScale]
  · norm_num [fix_precision, fpScale, learning_rate, lrFp, round_eq]
  · norm_num [float_precision, fpScale]
